import Mathlib

/-!
# Packet capture pipeline: batch writer, capture workers, shutdown

A shallow embedding of the Go programs of the repository:

* `data_collection_100k_IPv4.go`: `capturePackets` (IPv4-only worker),
  `processPackets` (batch writer with file rotation), `main`;
* `data_collection.go`: `capturePackets` (permissive worker), `main`;
* `main.go`: the interactive single-interface loop and `getTCPFlags`.

Conventions of the embedding.

* Go `int` values that only count upwards from zero are `Nat`; none of them
  can reach the 64 bit limit in the code paths modelled here.
* `time.Time` is a number of seconds since the Unix epoch (`Time`), the zero
  `time.Time` is `0`.  The wall clock is a function giving the value of the
  k-th call of `time.Now`, and `Time.Format` is a parameter.
* A channel that is ranged over until it is closed is the finite list of the
  values received from it.
* A call of `saveToJSON` is recorded in a log together with its outcome; the
  outcome of the k-th call is given by an oracle.
-/

namespace PacketCapture

/-! ## Record model -/

/-- Seconds since the Unix epoch; `0` stands for the zero `time.Time`. -/
abbrev Time := Nat

/-- The struct `PacketData` of `data_collection.go` and
`data_collection_100k_IPv4.go`. -/
structure PacketData where
  Interface : String
  Timestamp : Time
  Size : Nat
  Protocol : String
  SourceIP : String
  DestinationIP : String
  SourcePort : Nat
  DestinationPort : Nat
  TTL : Nat
  TCPFlags : String
  PacketType : String
  Direction : String
  PayloadHash : String
  Hour : Nat
  Minute : Nat
  Second : Nat
  DayOfWeek : String
deriving DecidableEq, Repr

/-- The struct `NetworkData`: one batch and its envelope. -/
structure NetworkData where
  StartTime : Time
  EndTime : Time
  PacketCount : Nat
  Packets : List PacketData
deriving DecidableEq, Repr

/-! ## The batch writer `processPackets` -/

/-- Everything `processPackets` reads from outside: the wall clock, the
layout function of `Time.Format("2006-01-02_15-04-05")` and the outcome of the
calls of `saveToJSON` (`true`: the call returns an error). -/
structure World where
  now : Nat → Time
  format : Time → String
  saveErr : Nat → Bool

/-- One call `saveToJSON(data, filename)` and whether it returned an error. -/
structure SaveCall where
  data : NetworkData
  filename : String
  err : Bool
deriving DecidableEq, Repr

/-- The function `saveToJSON` as the writer sees it: the k-th call is recorded
with its arguments, and whether `os.Create` or `Encode` returned an error is
read from the world. -/
def saveToJSON (w : World) (k : Nat) (data : NetworkData) (filename : String) : SaveCall :=
  { data := data, filename := filename, err := w.saveErr k }

/-- The literal of the rotation test `currentData.PacketCount >= 10000`. -/
def rotationThreshold : Nat := 10000

/-- The expression `fmt.Sprintf("network_data_%d_%s.json", fileCounter, stamp)`. -/
def fileName (fileCounter : Nat) (stamp : String) : String :=
  "network_data_" ++ Nat.repr fileCounter ++ "_" ++ stamp ++ ".json"

/-- The local variables of `processPackets`, the number of calls of `time.Now`
made so far, and the log of calls of `saveToJSON`. -/
structure WriterState where
  fileCounter : Nat
  currentData : NetworkData
  filename : String
  clock : Nat
  log : List SaveCall
deriving DecidableEq, Repr

/-- The state of `processPackets` when it enters the loop: `fileCounter := 1`,
an empty batch whose `StartTime` is the first reading of the clock, and the
first file name. -/
def initWriter (w : World) : WriterState :=
  { fileCounter := 1
    currentData := { StartTime := w.now 0, EndTime := 0, PacketCount := 0, Packets := [] }
    filename := fileName 1 (w.format (w.now 0))
    clock := 1
    log := [] }

/-- One iteration of `for packet := range dataChan`: the record is appended and
counted; when the count has reached the threshold the batch is handed to
`saveToJSON` (its error is only logged), the counter is incremented and a fresh
batch with a new file name is opened.  The progress line printed every 100
records and the other prints do not touch the state and are left out. -/
def loopBody (w : World) (s : WriterState) (packet : PacketData) : WriterState :=
  let cur : NetworkData :=
    { s.currentData with
      Packets := s.currentData.Packets ++ [packet]
      PacketCount := s.currentData.PacketCount + 1 }
  if cur.PacketCount ≥ rotationThreshold then
    let saved : NetworkData := { cur with EndTime := w.now s.clock }
    let call : SaveCall := saveToJSON w s.log.length saved s.filename
    let fresh : NetworkData :=
      { StartTime := w.now (s.clock + 1), EndTime := 0, PacketCount := 0, Packets := [] }
    { fileCounter := s.fileCounter + 1
      currentData := fresh
      filename := fileName (s.fileCounter + 1) (w.format fresh.StartTime)
      clock := s.clock + 2
      log := s.log ++ [call] }
  else
    { s with currentData := cur }

/-- The state of the writer after it has received the records `input`, before
the channel is closed. -/
def writerAfter (w : World) (input : List PacketData) : WriterState :=
  input.foldl (loopBody w) (initWriter w)

/-- The code after the loop: the open batch is saved when `PacketCount > 0`
(then `done <- true` ends the function). -/
def finalFlush (w : World) (s : WriterState) : List SaveCall :=
  if s.currentData.PacketCount > 0 then
    s.log ++
      [saveToJSON w s.log.length { s.currentData with EndTime := w.now s.clock } s.filename]
  else
    s.log

/-- The function `processPackets`: the calls of `saveToJSON` it makes, in order,
when it receives `input` and the channel is then closed. -/
def processPackets (w : World) (input : List PacketData) : List SaveCall :=
  finalFlush w (writerAfter w input)

/-- The calls of `saveToJSON` made by rotation (inside the loop). -/
def rotationFlushes (w : World) (input : List PacketData) : List SaveCall :=
  (writerAfter w input).log

/-- The batches that reached a file: the calls that returned no error. -/
def flushed (calls : List SaveCall) : List NetworkData :=
  (calls.filter (fun c => !c.err)).map (fun c => c.data)

/-- The record lists of a sequence of calls, in call order. -/
def batchPackets (calls : List SaveCall) : List (List PacketData) :=
  calls.map (fun c => c.data.Packets)

/-- The writer state with the outcomes of the calls of `saveToJSON` forgotten. -/
def eraseErr (s : WriterState) : WriterState :=
  { s with log := s.log.map (fun c => { c with err := false }) }

/-- The world in which every call of `saveToJSON` succeeds. -/
def allWritesSucceed (w : World) : World :=
  { w with saveErr := fun _ => false }

/-- A sample record, used in concrete evaluations. -/
def sampleRecord (n : Nat) : PacketData :=
  { Interface := "eth0", Timestamp := n, Size := 60, Protocol := "TCP"
    SourceIP := "10.0.0.1", DestinationIP := "10.0.0.2", SourcePort := 443
    DestinationPort := 51000, TTL := 0, TCPFlags := "SYN=true ACK=false FIN=false"
    PacketType := "IPv4", Direction := "", PayloadHash := "", Hour := 0, Minute := 0
    Second := 0, DayOfWeek := "Thursday" }

/-- A sample world: the clock advances by one second per reading, the layout
function prints the number of seconds, and every second write fails, the first
one included. -/
def sampleWorld : World :=
  { now := fun k => 1700000000 + k
    format := fun t => Nat.repr t
    saveErr := fun k => k % 2 == 0 }

/-- The invariant of the writer loop after the records `consumed` have been
received. -/
structure WriterInv (w : World) (s : WriterState) (consumed : List PacketData) : Prop where
  count_eq : s.currentData.PacketCount = s.currentData.Packets.length
  count_lt : s.currentData.PacketCount < rotationThreshold
  concat : (batchPackets s.log).flatten ++ s.currentData.Packets = consumed
  full : ∀ c ∈ s.log,
    c.data.PacketCount = rotationThreshold ∧ c.data.Packets.length = rotationThreshold
  total : consumed.length = rotationThreshold * s.log.length + s.currentData.PacketCount
  counter : s.fileCounter = s.log.length + 1
  ticks : s.clock = 2 * s.log.length + 1
  name : s.filename = fileName (s.log.length + 1) (w.format (w.now (2 * s.log.length)))
  names : s.log.map (fun c => c.filename)
    = (List.range s.log.length).map (fun i => fileName (i + 1) (w.format (w.now (2 * i))))
  errs : s.log.map (fun c => c.err) = (List.range s.log.length).map w.saveErr

/-! ## Decoded frames

The part of the packet source and of the decoder that the programs use: a frame
is its metadata, the bytes that were copied, and the list of decoded layers.
`NetworkLayer`, `TransportLayer` and `ApplicationLayer` give the first decoded
layer of their kind, `Layer(t)` the first layer of type `t`. -/

/-- The fields of `layers.TCP` read by the programs. -/
structure TCP where
  SrcPort : Nat
  DstPort : Nat
  Window : Nat
  FIN : Bool
  SYN : Bool
  RST : Bool
  PSH : Bool
  ACK : Bool
  URG : Bool
deriving DecidableEq, Repr

/-- A decoded layer.  `network` and `transport` stand for the network and
transport layers other than IPv4, TCP and UDP, and carry their type name. -/
inductive Layer where
  | link (name : String)
  | ipv4 (src dst : String)
  | network (name src dst : String)
  | tcp (t : TCP)
  | udp (srcPort dstPort : Nat)
  | transport (name : String)
  | application (name : String) (payload : List Nat)
deriving DecidableEq, Repr

/-- The capture metadata of a frame: `Length` is the length of the frame on the
wire, `CaptureLength` the number of bytes copied. -/
structure Metadata where
  Timestamp : Time
  CaptureLength : Nat
  Length : Nat
deriving DecidableEq, Repr

/-- A frame as delivered by the packet source. -/
structure Packet where
  metadata : Metadata
  data : List Nat
  layers : List Layer
deriving DecidableEq, Repr

/-- Whether a layer is a network layer. -/
def Layer.isNetwork : Layer → Bool
  | .ipv4 _ _ => true
  | .network _ _ _ => true
  | _ => false

/-- Whether a layer is a transport layer. -/
def Layer.isTransport : Layer → Bool
  | .tcp _ => true
  | .udp _ _ => true
  | .transport _ => true
  | _ => false

/-- Whether a layer is an application layer. -/
def Layer.isApplication : Layer → Bool
  | .application _ _ => true
  | _ => false

/-- Whether a layer has type `LayerTypeIPv4`. -/
def Layer.isIPv4 : Layer → Bool
  | .ipv4 _ _ => true
  | _ => false

/-- Whether a layer has type `LayerTypeTCP`. -/
def Layer.isTCP : Layer → Bool
  | .tcp _ => true
  | _ => false

/-- Whether a layer has type `LayerTypeUDP`. -/
def Layer.isUDP : Layer → Bool
  | .udp _ _ => true
  | _ => false

/-- The value of `LayerType().String()`. -/
def Layer.typeName : Layer → String
  | .link name => name
  | .ipv4 _ _ => "IPv4"
  | .network name _ _ => name
  | .tcp _ => "TCP"
  | .udp _ _ => "UDP"
  | .transport name => name
  | .application name _ => name

/-- The value of `NetworkFlow().Src().String()` (of `SrcIP.String()` for IPv4). -/
def Layer.flowSrc : Layer → String
  | .ipv4 src _ => src
  | .network _ src _ => src
  | _ => ""

/-- The value of `NetworkFlow().Dst().String()` (of `DstIP.String()` for IPv4). -/
def Layer.flowDst : Layer → String
  | .ipv4 _ dst => dst
  | .network _ _ dst => dst
  | _ => ""

/-- The value of `Payload()` of an application layer. -/
def Layer.payload : Layer → List Nat
  | .application _ bytes => bytes
  | _ => []

/-- The method `packet.NetworkLayer()`; `none` is the nil interface. -/
def Packet.NetworkLayer (p : Packet) : Option Layer := p.layers.find? Layer.isNetwork

/-- The method `packet.TransportLayer()`. -/
def Packet.TransportLayer (p : Packet) : Option Layer := p.layers.find? Layer.isTransport

/-- The method `packet.ApplicationLayer()`. -/
def Packet.ApplicationLayer (p : Packet) : Option Layer :=
  p.layers.find? Layer.isApplication

/-- The call `packet.Layer(layers.LayerTypeIPv4)`. -/
def Packet.LayerIPv4 (p : Packet) : Option Layer := p.layers.find? Layer.isIPv4

/-- The call `packet.Layer(layers.LayerTypeTCP)`. -/
def Packet.LayerTCP (p : Packet) : Option Layer := p.layers.find? Layer.isTCP

/-- The call `packet.Layer(layers.LayerTypeUDP)`. -/
def Packet.LayerUDP (p : Packet) : Option Layer := p.layers.find? Layer.isUDP

/-- The method `Time.Hour`, the clock being read in UTC. -/
def Time.Hour (t : Time) : Nat := t / 3600 % 24

/-- The method `Time.Minute`. -/
def Time.Minute (t : Time) : Nat := t / 60 % 60

/-- The method `Time.Second`. -/
def Time.Second (t : Time) : Nat := t % 60

/-- The value of `Weekday().String()`; day 0 of the epoch was a Thursday. -/
def Time.WeekdayString (t : Time) : String :=
  match (t / 86400 + 4) % 7 with
  | 0 => "Sunday"
  | 1 => "Monday"
  | 2 => "Tuesday"
  | 3 => "Wednesday"
  | 4 => "Thursday"
  | 5 => "Friday"
  | _ => "Saturday"

/-- The verb `%v` of `fmt.Sprintf` at a `bool`. -/
def fmtBool (b : Bool) : String := if b then "true" else "false"

/-- The expression `fmt.Sprintf("SYN=%v ACK=%v FIN=%v", tcp.SYN, tcp.ACK, tcp.FIN)`. -/
def tcpFlagsString (t : TCP) : String :=
  "SYN=" ++ fmtBool t.SYN ++ " ACK=" ++ fmtBool t.ACK ++ " FIN=" ++ fmtBool t.FIN

/-- One lower-case hexadecimal digit. -/
def hexDigit (n : Nat) : Char :=
  if n < 10 then Char.ofNat (48 + n) else Char.ofNat (87 + n)

/-- The function `hex.EncodeToString`: two digits per byte. -/
def hexEncodeToString (bytes : List Nat) : String :=
  String.mk ((bytes.map (fun b => [hexDigit (b / 16 % 16), hexDigit (b % 16)])).flatten)

/-- The result type `[32]byte` of `sha256.Sum256`. -/
abbrev Digest := { bytes : List Nat // bytes.length = 32 }

/-- The default record built at the top of the loop body of `capturePackets`
(both programs): interface, timestamp, size and the calendar fields; every
other field has its zero value. -/
def defaultPacketData (deviceName : String) (packet : Packet) : PacketData :=
  { Interface := deviceName
    Timestamp := packet.metadata.Timestamp
    Size := packet.data.length
    Protocol := "", SourceIP := "", DestinationIP := "", SourcePort := 0
    DestinationPort := 0, TTL := 0, TCPFlags := "", PacketType := "", Direction := ""
    PayloadHash := ""
    Hour := Time.Hour packet.metadata.Timestamp
    Minute := Time.Minute packet.metadata.Timestamp
    Second := Time.Second packet.metadata.Timestamp
    DayOfWeek := Time.WeekdayString packet.metadata.Timestamp }

/-- The statements guarded by `transportLayer != nil` in both variants of
`capturePackets`: the protocol name, and the ports (with window and flag text
for TCP) when the layer is TCP or UDP. -/
def setTransport (pd : PacketData) (transportLayer : Layer) : PacketData :=
  let pd := { pd with Protocol := transportLayer.typeName }
  match transportLayer with
  | .tcp t =>
    { pd with SourcePort := t.SrcPort, DestinationPort := t.DstPort, TTL := t.Window
              TCPFlags := tcpFlagsString t }
  | .udp srcPort dstPort => { pd with SourcePort := srcPort, DestinationPort := dstPort }
  | _ => pd

namespace DataCollection

/-- The loop body of `capturePackets` in `data_collection.go`: the record sent
on `dataChan` for one frame. -/
def packetDataOf (sum256 : List Nat → Digest) (deviceName : String) (packet : Packet) :
    PacketData :=
  let pd := defaultPacketData deviceName packet
  let pd :=
    match packet.NetworkLayer with
    | some netLayer =>
      { pd with PacketType := netLayer.typeName
                SourceIP := netLayer.flowSrc
                DestinationIP := netLayer.flowDst }
    | none => pd
  let pd :=
    match packet.TransportLayer with
    | some transportLayer => setTransport pd transportLayer
    | none => pd
  match packet.ApplicationLayer with
  | some appLayer => { pd with PayloadHash := hexEncodeToString (sum256 appLayer.payload).val }
  | none => pd

/-- The function `capturePackets` of `data_collection.go` on the frames that the
packet source delivers: the records sent on `dataChan`, in order. -/
def capturePackets (sum256 : List Nat → Digest) (deviceName : String)
    (frames : List Packet) : List PacketData :=
  frames.map (packetDataOf sum256 deviceName)

end DataCollection

namespace DataCollection100k

/-- The loop body of `capturePackets` in `data_collection_100k_IPv4.go`: the
record sent on `dataChan` for one frame, `none` when nothing is sent. -/
def packetDataOf (deviceName : String) (packet : Packet) : Option PacketData :=
  let pd := defaultPacketData deviceName packet
  match packet.NetworkLayer with
  | none => none
  | some netLayer =>
    let pd := { pd with PacketType := netLayer.typeName }
    match packet.LayerIPv4 with
    | none => none
    | some ipv4 =>
      let pd := { pd with SourceIP := ipv4.flowSrc, DestinationIP := ipv4.flowDst }
      match packet.TransportLayer with
      | none => none
      | some transportLayer => some (setTransport pd transportLayer)

/-- The function `capturePackets` of `data_collection_100k_IPv4.go` on the frames
that the packet source delivers: the records sent on `dataChan`, in order. -/
def capturePackets (deviceName : String) (frames : List Packet) : List PacketData :=
  frames.filterMap (packetDataOf deviceName)

end DataCollection100k

/-! ## Serialized records

The encoder of `encoding/json` on a `PacketData`: one member per struct field in
declaration order, a field tagged `omitempty` being left out when it holds the
zero value of its type. -/

/-- A JSON value of the kinds that occur in a record. -/
inductive JSONValue where
  | str (s : String)
  | num (n : Nat)
  | time (t : Time)
deriving DecidableEq, Repr

/-- A string field tagged `omitempty`. -/
def omitemptyStr (key : String) (v : String) : List (String × JSONValue) :=
  if v = "" then [] else [(key, .str v)]

/-- An integer field tagged `omitempty`. -/
def omitemptyNum (key : String) (v : Nat) : List (String × JSONValue) :=
  if v = 0 then [] else [(key, .num v)]

/-- The members of the JSON object that `json.Encoder.Encode` writes for a
`PacketData`, following the struct tags. -/
def marshalPacketData (p : PacketData) : List (String × JSONValue) :=
  [("interface", .str p.Interface), ("timestamp", .time p.Timestamp), ("size", .num p.Size),
   ("protocol", .str p.Protocol), ("source_ip", .str p.SourceIP),
   ("destination_ip", .str p.DestinationIP)]
  ++ omitemptyNum "source_port" p.SourcePort
  ++ omitemptyNum "destination_port" p.DestinationPort
  ++ omitemptyNum "ttl" p.TTL
  ++ omitemptyStr "tcp_flags" p.TCPFlags
  ++ [("packet_type", .str p.PacketType), ("direction", .str p.Direction)]
  ++ omitemptyStr "payload_hash" p.PayloadHash
  ++ [("hour", .num p.Hour), ("minute", .num p.Minute), ("second", .num p.Second),
      ("day_of_week", .str p.DayOfWeek)]

/-- The value of a member of a serialized record, `none` when it is omitted. -/
def member (obj : List (String × JSONValue)) (key : String) : Option JSONValue :=
  (obj.find? (fun kv => kv.1 == key)).map (fun kv => kv.2)

namespace MainGo

/-- The struct `PacketData` of `main.go`; a nil `Flags` slice is the empty list. -/
structure PacketData where
  Interface : String
  Timestamp : Time
  Size : Nat
  Protocol : String
  SourceIP : String
  DestinationIP : String
  SourcePort : Nat
  DestinationPort : Nat
  PacketType : String
  Flags : List String
deriving DecidableEq, Repr

/-- The function `getTCPFlags` of `main.go`: six tests in the order FIN, SYN,
RST, PSH, ACK, URG, each appending its name. -/
def getTCPFlags (tcp : TCP) : List String :=
  let flags : List String := []
  let flags := if tcp.FIN then flags ++ ["FIN"] else flags
  let flags := if tcp.SYN then flags ++ ["SYN"] else flags
  let flags := if tcp.RST then flags ++ ["RST"] else flags
  let flags := if tcp.PSH then flags ++ ["PSH"] else flags
  let flags := if tcp.ACK then flags ++ ["ACK"] else flags
  let flags := if tcp.URG then flags ++ ["URG"] else flags
  flags

/-- The record `packetInfo` that the capture loop of `main.go` builds for one
frame. -/
def packetInfoOf (deviceName : String) (packet : Packet) : PacketData :=
  let info : PacketData :=
    { Interface := deviceName
      Timestamp := packet.metadata.Timestamp
      Size := packet.metadata.Length
      Protocol := "", SourceIP := "", DestinationIP := "", SourcePort := 0
      DestinationPort := 0, PacketType := "", Flags := [] }
  let info :=
    match packet.LayerIPv4 with
    | some (.ipv4 src dst) =>
      { info with SourceIP := src, DestinationIP := dst, PacketType := "IPv4" }
    | _ => info
  let info :=
    match packet.LayerTCP with
    | some (.tcp t) =>
      { info with Protocol := "TCP", SourcePort := t.SrcPort, DestinationPort := t.DstPort
                  Flags := getTCPFlags t }
    | _ => info
  match packet.LayerUDP with
  | some (.udp srcPort dstPort) =>
    { info with Protocol := "UDP", SourcePort := srcPort, DestinationPort := dstPort }
  | _ => info

end MainGo

/-- The six flag names of the record model. -/
def flagNames : List String := ["SYN", "ACK", "FIN", "RST", "PSH", "URG"]

/-- Whether the flag with the given name is set in a segment. -/
def TCP.flagSet (t : TCP) (name : String) : Bool :=
  if name = "SYN" then t.SYN
  else if name = "ACK" then t.ACK
  else if name = "FIN" then t.FIN
  else if name = "RST" then t.RST
  else if name = "PSH" then t.PSH
  else if name = "URG" then t.URG
  else false

/-! ## Shutdown

The statements of the two `main` functions from the receipt of the stop signal
on, and the interleavings of `main` with a capture worker that is still in its
loop.  A send on a closed channel is the run-time panic of Go. -/

/-- The actions of the coordinator during shutdown. -/
inductive MainAction where
  | awaitSignal
  | signalWorkersStop
  | closeDataChan
  | awaitWriter
  | saveToJSON
  | waitWorkers
deriving DecidableEq, Repr

/-- The statements of `main` in `data_collection_100k_IPv4.go` from `<-sigChan`
on: `close(dataChan)`, `<-done`, `wg.Wait()`. -/
def mainShutdown100k : List MainAction :=
  [.awaitSignal, .closeDataChan, .awaitWriter, .waitWorkers]

/-- The statements of `main` in `data_collection.go` from `<-sigChan` on:
`close(dataChan)`, `saveToJSON(...)`, `wg.Wait()`. -/
def mainShutdownBase : List MainAction :=
  [.awaitSignal, .closeDataChan, .saveToJSON, .waitWorkers]

/-- The state of the processes during shutdown. -/
structure SysState where
  pending : List MainAction
  signalled : Bool
  stopRequested : Bool
  chanClosed : Bool
  workersRunning : Nat
  panicked : Bool
deriving DecidableEq, Repr

/-- The scheduler events: the stop signal arrives, `main` tries its next
statement, a running worker sends a record, a running worker returns because its
packet source has ended. -/
inductive Event where
  | signal
  | mainStep
  | workerSend
  | workerExit
deriving DecidableEq, Repr

/-- One event.  A blocked statement (`<-sigChan` before the signal, `wg.Wait`
while a worker runs, `<-done` before the channel is closed) leaves the state
unchanged; after a panic nothing moves. -/
def sysStep (s : SysState) (e : Event) : SysState :=
  if s.panicked then s else
  match e with
  | .signal => { s with signalled := true }
  | .workerSend =>
    if s.workersRunning = 0 then s
    else if s.chanClosed then { s with panicked := true } else s
  | .workerExit => { s with workersRunning := s.workersRunning - 1 }
  | .mainStep =>
    match s.pending with
    | [] => s
    | .awaitSignal :: rest => if s.signalled then { s with pending := rest } else s
    | .signalWorkersStop :: rest => { s with pending := rest, stopRequested := true }
    | .closeDataChan :: rest =>
      if s.chanClosed then { s with panicked := true }
      else { s with pending := rest, chanClosed := true }
    | .awaitWriter :: rest => if s.chanClosed then { s with pending := rest } else s
    | .saveToJSON :: rest => { s with pending := rest }
    | .waitWorkers :: rest => if s.workersRunning = 0 then { s with pending := rest } else s

/-- The state when `main` reaches `<-sigChan` with `workers` capture workers
in their loops. -/
def sysInit (program : List MainAction) (workers : Nat) : SysState :=
  { pending := program, signalled := false, stopRequested := false, chanClosed := false
    workersRunning := workers, panicked := false }

/-- The state after a schedule of events. -/
def sysRun (program : List MainAction) (workers : Nat) (schedule : List Event) : SysState :=
  schedule.foldl sysStep (sysInit program workers)

/-- The position of an action in a program, `none` when it does not occur. -/
def position (program : List MainAction) (a : MainAction) : Option Nat :=
  let i := program.indexOf a
  if i < program.length then some i else none

/-- The order that the shutdown contract asks for: the workers are signalled,
then awaited, and only then is the channel closed. -/
def closesAfterWorkers (program : List MainAction) : Bool :=
  match position program .signalWorkersStop, position program .waitWorkers,
      position program .closeDataChan with
  | some i, some j, some k => decide (i < j) && decide (j < k)
  | _, _, _ => false

/-! ## Sample frames -/

/-- A stand-in for `sha256.Sum256` in concrete evaluations. -/
def sampleSum256 : List Nat → Digest := fun _ => ⟨List.replicate 32 0, List.length_replicate _ _⟩

/-- A frame of which only the link layer was decoded. -/
def bareFrame : Packet :=
  { metadata := { Timestamp := 1700000000, CaptureLength := 60, Length := 60 }
    data := List.replicate 60 0
    layers := [.link "Ethernet"] }

/-- A segment header with the given flags, from port 443 to port 51000. -/
def segment (fin syn rst psh ack urg : Bool) : TCP :=
  { SrcPort := 443, DstPort := 51000, Window := 512
    FIN := fin, SYN := syn, RST := rst, PSH := psh, ACK := ack, URG := urg }

/-- An Ethernet, IPv4, TCP frame without payload carrying the given segment. -/
def tcpFrame (t : TCP) : Packet :=
  { metadata := { Timestamp := 1700000000, CaptureLength := 54, Length := 54 }
    data := List.replicate 54 0
    layers := [.link "Ethernet", .ipv4 "10.0.0.1" "10.0.0.2", .tcp t] }

/-- A TCP frame whose source port is 0. -/
def portZeroFrame : Packet :=
  tcpFrame { segment false true false false false false with SrcPort := 0 }

/-- A frame of 3000 bytes on the wire of which 1600 bytes (the snapshot length
passed to `pcap.OpenLive` by both variants of `capturePackets`) were copied. -/
def truncatedFrame : Packet :=
  { metadata := { Timestamp := 1700000000, CaptureLength := 1600, Length := 3000 }
    data := List.replicate 1600 0
    layers := [.link "Ethernet", .ipv4 "10.0.0.1" "10.0.0.2",
               .tcp (segment false false false false true false)] }

/-! ## Lemmas on the writer loop -/

theorem rotationThreshold_pos : 0 < rotationThreshold := by decide

theorem loopBody_keep (w : World) (s : WriterState) (p : PacketData)
    (h : s.currentData.PacketCount + 1 < rotationThreshold) :
    loopBody w s p =
      { s with currentData :=
          { s.currentData with
            Packets := s.currentData.Packets ++ [p]
            PacketCount := s.currentData.PacketCount + 1 } } := by
  unfold loopBody
  simp only [ge_iff_le]
  rw [if_neg (by omega)]

theorem loopBody_rotate (w : World) (s : WriterState) (p : PacketData)
    (h : rotationThreshold ≤ s.currentData.PacketCount + 1) :
    loopBody w s p =
      { fileCounter := s.fileCounter + 1
        currentData :=
          { StartTime := w.now (s.clock + 1), EndTime := 0, PacketCount := 0, Packets := [] }
        filename := fileName (s.fileCounter + 1) (w.format (w.now (s.clock + 1)))
        clock := s.clock + 2
        log := s.log ++
          [{ data :=
               { StartTime := s.currentData.StartTime
                 EndTime := w.now s.clock
                 PacketCount := s.currentData.PacketCount + 1
                 Packets := s.currentData.Packets ++ [p] }
             filename := s.filename
             err := w.saveErr s.log.length }] } := by
  unfold loopBody
  simp only [ge_iff_le]
  rw [if_pos h]
  rfl

theorem writerInv_init (w : World) : WriterInv w (initWriter w) [] := by
  constructor <;> simp [initWriter, batchPackets, rotationThreshold_pos]

theorem writerInv_step (w : World) (s : WriterState) (consumed : List PacketData)
    (p : PacketData) (h : WriterInv w s consumed) :
    WriterInv w (loopBody w s p) (consumed ++ [p]) := by
  by_cases hc : s.currentData.PacketCount + 1 < rotationThreshold
  · rw [loopBody_keep w s p hc]
    refine ⟨?_, ?_, ?_, ?_, ?_, ?_, ?_, ?_, ?_, ?_⟩
    · simp [h.count_eq]
    · exact hc
    · simp only [← h.concat, List.append_assoc]
    · exact h.full
    · simp only [List.length_append, List.length_singleton, h.total]; omega
    · exact h.counter
    · exact h.ticks
    · exact h.name
    · exact h.names
    · exact h.errs
  · have hge : rotationThreshold ≤ s.currentData.PacketCount + 1 := by omega
    have hlt := h.count_lt
    have heq : s.currentData.PacketCount + 1 = rotationThreshold := by omega
    rw [loopBody_rotate w s p hge]
    refine ⟨?_, ?_, ?_, ?_, ?_, ?_, ?_, ?_, ?_, ?_⟩
    · simp
    · exact rotationThreshold_pos
    · simp only [batchPackets, List.map_append, List.map_cons, List.map_nil,
        List.flatten_append, List.flatten_cons, List.flatten_nil, List.append_nil]
      rw [← h.concat, List.append_assoc]; rfl
    · intro c hcmem
      rcases List.mem_append.mp hcmem with hm | hm
      · exact h.full c hm
      · rw [List.mem_singleton] at hm
        subst hm
        refine ⟨heq, ?_⟩
        simp only [List.length_append, List.length_singleton, ← h.count_eq]
        exact heq
    · simp only [List.length_append, List.length_singleton, h.total]
      rw [Nat.mul_add]; omega
    · simp [h.counter]
    · simp only [List.length_append, List.length_singleton, h.ticks]; omega
    · simp only [List.length_append, List.length_singleton, h.counter, h.ticks]
      have e : 2 * s.log.length + 1 + 1 = 2 * (s.log.length + 1) := by omega
      rw [e]
    · simp only [List.map_append, List.map_cons, List.map_nil, List.length_append,
        List.length_singleton, List.range_succ, h.names, h.name]
    · simp only [List.map_append, List.map_cons, List.map_nil, List.length_append,
        List.length_singleton, List.range_succ, h.errs]

theorem writerInv_foldl (w : World) (input : List PacketData) :
    ∀ (s : WriterState) (consumed : List PacketData), WriterInv w s consumed →
      WriterInv w (input.foldl (loopBody w) s) (consumed ++ input) := by
  induction input with
  | nil => intro s consumed h; simpa using h
  | cons p rest ih =>
    intro s consumed h
    have h2 := ih (loopBody w s p) (consumed ++ [p]) (writerInv_step w s consumed p h)
    simpa [List.append_assoc] using h2

theorem writerInv_writerAfter (w : World) (input : List PacketData) :
    WriterInv w (writerAfter w input) input := by
  have h := writerInv_foldl w input (initWriter w) [] (writerInv_init w)
  simpa [writerAfter] using h

theorem batchPackets_append (a b : List SaveCall) :
    batchPackets (a ++ b) = batchPackets a ++ batchPackets b := by
  simp [batchPackets]

theorem processPackets_eq (w : World) (input : List PacketData) :
    processPackets w input =
      if (writerAfter w input).currentData.PacketCount > 0 then
        (writerAfter w input).log ++
          [{ data := { (writerAfter w input).currentData with
                       EndTime := w.now (writerAfter w input).clock }
             filename := (writerAfter w input).filename
             err := w.saveErr (writerAfter w input).log.length }]
      else (writerAfter w input).log := rfl

/-- Whatever the outcomes of the writes, the batches handed to `saveToJSON`,
concatenated in call order, are the received sequence. -/
theorem batchPackets_processPackets (w : World) (input : List PacketData) :
    (batchPackets (processPackets w input)).flatten = input := by
  have inv := writerInv_writerAfter w input
  rw [processPackets_eq]
  split
  · rw [batchPackets_append, List.flatten_append]
    simpa [batchPackets] using inv.concat
  · rename_i h
    have h0 : (writerAfter w input).currentData.Packets = [] := by
      apply List.eq_nil_of_length_eq_zero
      rw [← inv.count_eq]; omega
    have := inv.concat
    rw [h0, List.append_nil] at this
    exact this

theorem processPackets_err (w : World) (input : List PacketData) :
    ∀ c ∈ processPackets w input, ∃ k, c.err = w.saveErr k := by
  have inv := writerInv_writerAfter w input
  have hlog : ∀ c ∈ (writerAfter w input).log, ∃ k, c.err = w.saveErr k := by
    intro c hc
    have hm : c.err ∈ (writerAfter w input).log.map (fun c => c.err) :=
      List.mem_map_of_mem _ hc
    rw [inv.errs, List.mem_map] at hm
    obtain ⟨k, _, hk⟩ := hm
    exact ⟨k, hk.symm⟩
  intro c hc
  rw [processPackets_eq] at hc
  split at hc
  · rcases List.mem_append.mp hc with h | h
    · exact hlog c h
    · rw [List.mem_singleton] at h
      exact ⟨_, by rw [h]⟩
  · exact hlog c hc

theorem flushed_of_no_error (calls : List SaveCall) (h : ∀ c ∈ calls, c.err = false) :
    flushed calls = calls.map (fun c => c.data) := by
  unfold flushed
  rw [List.filter_eq_self.mpr]
  intro c hc
  simp [h c hc]

/-- C1. When every write succeeds, the flushed batches of `processPackets`,
concatenated in flush order, are exactly the received sequence (so arrival
order is kept and the last partial batch is included), every call of
`saveToJSON` is a flushed batch, and each record occurs in the flushed batches
as many times as it was received (no loss, no duplication). -/
theorem processPackets_delivers_all (w : World) (input : List PacketData)
    (hok : ∀ k, w.saveErr k = false) :
    ((flushed (processPackets w input)).map (fun b => b.Packets)).flatten = input
    ∧ flushed (processPackets w input) = (processPackets w input).map (fun c => c.data)
    ∧ ∀ r : PacketData,
        ((flushed (processPackets w input)).map (fun b => b.Packets.count r)).sum
          = input.count r := by
  have hall : ∀ c ∈ processPackets w input, c.err = false := by
    intro c hc
    obtain ⟨k, hk⟩ := processPackets_err w input c hc
    rw [hk, hok k]
  have hfl := flushed_of_no_error _ hall
  have hcat : ((flushed (processPackets w input)).map (fun b => b.Packets)).flatten = input := by
    rw [hfl, List.map_map]
    exact batchPackets_processPackets w input
  refine ⟨hcat, hfl, ?_⟩
  intro r
  conv_rhs => rw [← hcat]
  rw [List.count_flatten, List.map_map]
  rfl

/-- Witness of C1 on three records in a world where no write fails. -/
theorem processPackets_delivers_all_witness :
    (∀ k, (allWritesSucceed sampleWorld).saveErr k = false) ∧
    ((flushed (processPackets (allWritesSucceed sampleWorld)
        [sampleRecord 1, sampleRecord 2, sampleRecord 3])).map (fun b => b.Packets)).flatten
      = [sampleRecord 1, sampleRecord 2, sampleRecord 3] :=
  ⟨fun _ => rfl, (processPackets_delivers_all (allWritesSucceed sampleWorld)
    [sampleRecord 1, sampleRecord 2, sampleRecord 3] (fun _ => rfl)).1⟩

theorem writerAfter_log_length (w : World) (input : List PacketData) :
    (writerAfter w input).log.length = input.length / rotationThreshold := by
  have inv := writerInv_writerAfter w input
  have ht := inv.total
  have hlt := inv.count_lt
  rw [ht, Nat.mul_add_div rotationThreshold_pos, Nat.div_eq_of_lt hlt, Nat.add_zero]

theorem writerAfter_count (w : World) (input : List PacketData) :
    (writerAfter w input).currentData.PacketCount = input.length % rotationThreshold := by
  have inv := writerInv_writerAfter w input
  have ht := inv.total
  have hlt := inv.count_lt
  rw [ht, Nat.mul_add_mod, Nat.mod_eq_of_lt hlt]

theorem processPackets_count_le (w : World) (input : List PacketData) :
    ∀ c ∈ processPackets w input, c.data.PacketCount ≤ rotationThreshold := by
  have inv := writerInv_writerAfter w input
  intro c hc
  rw [processPackets_eq] at hc
  split at hc
  · rcases List.mem_append.mp hc with h | h
    · exact le_of_eq (inv.full c h).1
    · rw [List.mem_singleton] at h
      rw [h]
      exact le_of_lt inv.count_lt
  · exact le_of_eq (inv.full c hc).1

/-- C2. With N = `rotationThreshold` the record count per batch: after k records
have been received the writer has flushed k / N batches by rotation and its open
batch holds k % N records (so the first flush happens right after the N-th
record and not earlier, and the batch opened by a flush starts with zero
records); every batch flushed by rotation holds N records, and the
`packet_count` of every batch handed to `saveToJSON` is at most N. -/
theorem processPackets_rotation_policy (w : World) (input : List PacketData) :
    (rotationFlushes w input).length = input.length / rotationThreshold
    ∧ (writerAfter w input).currentData.PacketCount = input.length % rotationThreshold
    ∧ (writerAfter w input).currentData.Packets.length = input.length % rotationThreshold
    ∧ (∀ c ∈ rotationFlushes w input,
        c.data.PacketCount = rotationThreshold ∧ c.data.Packets.length = rotationThreshold)
    ∧ (∀ c ∈ processPackets w input, c.data.PacketCount ≤ rotationThreshold) := by
  have inv := writerInv_writerAfter w input
  refine ⟨writerAfter_log_length w input, writerAfter_count w input, ?_, inv.full,
    processPackets_count_le w input⟩
  rw [← inv.count_eq]
  exact writerAfter_count w input

/-! ### Write failures -/

theorem eraseErr_initWriter (w : World) :
    eraseErr (initWriter w) = initWriter (allWritesSucceed w) := rfl

theorem eraseErr_loopBody (w : World) (s : WriterState) (p : PacketData) :
    eraseErr (loopBody w s p) = loopBody (allWritesSucceed w) (eraseErr s) p := by
  by_cases hc : s.currentData.PacketCount + 1 < rotationThreshold
  · rw [loopBody_keep w s p hc, loopBody_keep (allWritesSucceed w) (eraseErr s) p hc]
    rfl
  · have hge : rotationThreshold ≤ s.currentData.PacketCount + 1 := by omega
    rw [loopBody_rotate w s p hge, loopBody_rotate (allWritesSucceed w) (eraseErr s) p hge]
    simp [eraseErr, allWritesSucceed]

theorem eraseErr_foldl (w : World) (input : List PacketData) :
    ∀ s : WriterState, eraseErr (input.foldl (loopBody w) s)
      = input.foldl (loopBody (allWritesSucceed w)) (eraseErr s) := by
  induction input with
  | nil => intro s; rfl
  | cons p rest ih =>
    intro s
    simp only [List.foldl_cons]
    rw [ih, eraseErr_loopBody]

theorem eraseErr_writerAfter (w : World) (input : List PacketData) :
    eraseErr (writerAfter w input) = writerAfter (allWritesSucceed w) input := by
  unfold writerAfter
  rw [eraseErr_foldl, eraseErr_initWriter]

/-- The calls of `saveToJSON` are, up to their outcome, those of the run in
which every write succeeds. -/
theorem processPackets_eraseErr (w : World) (input : List PacketData) :
    (processPackets w input).map (fun c => ({ c with err := false } : SaveCall))
      = processPackets (allWritesSucceed w) input := by
  rw [processPackets_eq, processPackets_eq, ← eraseErr_writerAfter]
  by_cases h : (writerAfter w input).currentData.PacketCount > 0
  · rw [if_pos h, if_pos (by simpa [eraseErr] using h)]
    simp [eraseErr, allWritesSucceed]
  · rw [if_neg h, if_neg (by simpa [eraseErr] using h)]
    simp [eraseErr]

/-- C3. For every input and every pattern of write failures: the batches handed
to `saveToJSON` (packets, `packet_count`, times and file name) are those of the
run in which every write succeeds, so a failure neither stops the writer nor
changes any other batch; the handed batches concatenate to the input, so the
records of a failed batch are not put into a later batch: when the received
records are pairwise different, the batches are pairwise disjoint. -/
theorem processPackets_failed_batch_dropped (w : World) (input : List PacketData) :
    (processPackets w input).map (fun c => (c.data, c.filename))
      = (processPackets (allWritesSucceed w) input).map (fun c => (c.data, c.filename))
    ∧ (batchPackets (processPackets w input)).flatten = input
    ∧ (input.Nodup →
        (batchPackets (processPackets w input)).Pairwise (fun a b => List.Disjoint a b)) := by
  refine ⟨?_, batchPackets_processPackets w input, ?_⟩
  · rw [← processPackets_eraseErr w input, List.map_map]
    rfl
  · intro hnd
    have h := batchPackets_processPackets w input
    rw [← h] at hnd
    exact (List.nodup_flatten.mp hnd).2

/-- Witness of C3 on two different records in a world whose first write fails. -/
theorem processPackets_failed_batch_dropped_witness :
    [sampleRecord 1, sampleRecord 2].Nodup
    ∧ (batchPackets (processPackets sampleWorld [sampleRecord 1, sampleRecord 2])).Pairwise
        (fun a b => List.Disjoint a b) :=
  ⟨by decide,
   (processPackets_failed_batch_dropped sampleWorld [sampleRecord 1, sampleRecord 2]).2.2
     (by decide)⟩

/-! ### File names -/

theorem digitChar_toNat (k : Nat) (h : k < 10) : (Nat.digitChar k).toNat - 48 = k := by
  interval_cases k <;> rfl

theorem digitChar_ne_underscore (k : Nat) (h : k < 10) : Nat.digitChar k ≠ '_' := by
  interval_cases k <;> decide

theorem toDigitsCore_eq (fuel : Nat) : ∀ (n : Nat) (ds : List Char), n < fuel → 0 < n →
    Nat.toDigitsCore 10 fuel n ds = ((Nat.digits 10 n).reverse.map Nat.digitChar) ++ ds := by
  induction fuel with
  | zero => intro n ds h; omega
  | succ f ih =>
    intro n ds hlt hpos
    rw [Nat.digits_def' (by norm_num) hpos]
    simp only [Nat.toDigitsCore]
    by_cases h0 : n / 10 = 0
    · rw [if_pos h0, h0]
      simp
    · rw [if_neg h0, ih (n / 10) _ (by omega) (by omega)]
      simp

theorem toDigits_eq (n : Nat) (hpos : 0 < n) :
    Nat.toDigits 10 n = (Nat.digits 10 n).reverse.map Nat.digitChar := by
  unfold Nat.toDigits
  rw [toDigitsCore_eq (n + 1) n [] (by omega) hpos, List.append_nil]

theorem toDigits_decode (n : Nat) :
    Nat.ofDigits 10 (((Nat.toDigits 10 n).map (fun c => c.toNat - 48)).reverse) = n := by
  rcases Nat.eq_zero_or_pos n with h | h
  · subst h; rfl
  · rw [toDigits_eq n h, List.map_map, List.map_reverse, List.reverse_reverse]
    have : (Nat.digits 10 n).map ((fun c => c.toNat - 48) ∘ Nat.digitChar) = Nat.digits 10 n := by
      conv_rhs => rw [← List.map_id (Nat.digits 10 n)]
      apply List.map_congr_left
      intro a ha
      exact digitChar_toNat a (Nat.digits_lt_base (by norm_num) ha)
    rw [this, Nat.ofDigits_digits]

theorem toDigits_injective : Function.Injective (Nat.toDigits 10) := by
  intro a b h
  rw [← toDigits_decode a, ← toDigits_decode b, h]

theorem toDigits_no_underscore (n : Nat) : '_' ∉ Nat.toDigits 10 n := by
  rcases Nat.eq_zero_or_pos n with h | h
  · subst h; decide
  · rw [toDigits_eq n h]
    intro hm
    rw [List.mem_map] at hm
    obtain ⟨k, hk, he⟩ := hm
    rw [List.mem_reverse] at hk
    exact digitChar_ne_underscore k (Nat.digits_lt_base (by norm_num) hk) he

theorem append_sep_cancel {α : Type} (a : α) : ∀ (l1 l2 r1 r2 : List α),
    a ∉ l1 → a ∉ l2 → l1 ++ a :: r1 = l2 ++ a :: r2 → l1 = l2 := by
  intro l1
  induction l1 with
  | nil =>
    intro l2 r1 r2 _ h2 h
    cases l2 with
    | nil => rfl
    | cons b t =>
      simp only [List.nil_append, List.cons_append, List.cons.injEq] at h
      exact absurd (h.1 ▸ List.mem_cons_self _ _) h2
  | cons x t ih =>
    intro l2 r1 r2 h1 h2 h
    cases l2 with
    | nil =>
      simp only [List.nil_append, List.cons_append, List.cons.injEq] at h
      exact absurd (h.1 ▸ List.mem_cons_self _ _) h1
    | cons b t2 =>
      simp only [List.cons_append, List.cons.injEq] at h
      rw [h.1, ih t2 r1 r2 (fun hm => h1 (List.mem_cons_of_mem _ hm))
        (fun hm => h2 (List.mem_cons_of_mem _ hm)) h.2]

theorem fileName_injective (n m : Nat) (s t : String) (h : fileName n s = fileName m t) :
    n = m := by
  unfold fileName at h
  have hd := congrArg String.data h
  simp only [String.data_append, List.append_assoc] at hd
  have hd2 := List.append_cancel_left hd
  simp only [List.singleton_append] at hd2
  have h3 := append_sep_cancel '_' _ _ _ _ (by simpa [Nat.repr] using toDigits_no_underscore n)
    (by simpa [Nat.repr] using toDigits_no_underscore m) hd2
  apply toDigits_injective
  simpa [Nat.repr] using h3

theorem processPackets_filenames (w : World) (input : List PacketData) :
    (processPackets w input).map (fun c => c.filename)
      = (List.range (processPackets w input).length).map
          (fun i => fileName (i + 1) (w.format (w.now (2 * i)))) := by
  have inv := writerInv_writerAfter w input
  rw [processPackets_eq]
  split
  · simp only [List.map_append, List.map_cons, List.map_nil, List.length_append,
      List.length_singleton, List.range_succ, inv.names, inv.name]
  · exact inv.names

/-- C8. In one run of `processPackets` the i-th call of `saveToJSON` (counting
from 1) writes to the file named with sequence number i and the start time of
its batch, so the sequence numbers are 1, 2, 3, ... in flush order, and whatever
the clock and the time layout are, no two calls use the same file name. -/
theorem processPackets_names_distinct (w : World) (input : List PacketData) :
    (processPackets w input).map (fun c => c.filename)
      = (List.range (processPackets w input).length).map
          (fun i => fileName (i + 1) (w.format (w.now (2 * i))))
    ∧ ((processPackets w input).map (fun c => c.filename)).Nodup := by
  refine ⟨processPackets_filenames w input, ?_⟩
  rw [processPackets_filenames]
  apply List.Nodup.map_on _ (List.nodup_range _)
  intro i _ j _ h
  have := fileName_injective _ _ _ _ h
  omega

/-! ### The rotation threshold -/

theorem rotationFlushes_of_length_eq (w : World) (input : List PacketData)
    (h : input.length = rotationThreshold) :
    (rotationFlushes w input).map (fun c => c.data.PacketCount) = [rotationThreshold] := by
  have inv := writerInv_writerAfter w input
  have hlen := writerAfter_log_length w input
  rw [h, Nat.div_self rotationThreshold_pos] at hlen
  unfold rotationFlushes
  obtain ⟨c, hc⟩ := List.length_eq_one.mp hlen
  have hfull := inv.full c (by rw [hc]; exact List.mem_singleton_self c)
  rw [hc, List.map_cons, List.map_nil, hfull.1]

theorem rotationFlushes_of_length_lt (w : World) (input : List PacketData)
    (h : input.length < rotationThreshold) : rotationFlushes w input = [] := by
  have hlen := writerAfter_log_length w input
  rw [Nat.div_eq_of_lt h] at hlen
  exact List.eq_nil_of_length_eq_zero hlen

/-- C10. The code at the failing input: on 10,000 received records the writer
has already rotated, flushing one batch of 10,000 packets (the comment at the
rotation test and the file name of the program say 100,000), and on 9,999
records it has not rotated yet. -/
theorem processPackets_rotates_at_ten_thousand (w : World) :
    (rotationFlushes w (List.replicate 10000 (sampleRecord 0))).map
        (fun c => c.data.PacketCount) = [10000]
    ∧ rotationFlushes w (List.replicate 9999 (sampleRecord 0)) = []
    ∧ (10000 : Nat) ≠ 100000 :=
  ⟨rotationFlushes_of_length_eq w _ (List.length_replicate _ _),
   rotationFlushes_of_length_lt w _
     (lt_of_eq_of_lt (List.length_replicate _ _) (Nat.lt_succ_self 9999)),
   by decide⟩

/-! ## The capture workers -/

theorem find?_isSome_eq_any {α : Type} (p : α → Bool) (l : List α) :
    (l.find? p).isSome = l.any p := by
  induction l with
  | nil => rfl
  | cons a t ih =>
    by_cases h : p a = true
    · simp [List.find?, h]
    · have h2 : p a = false := by simpa using h
      simp [List.find?, h2, ih]

theorem isNetwork_of_isIPv4 (l : Layer) (h : l.isIPv4 = true) : l.isNetwork = true := by
  cases l <;> simp_all [Layer.isIPv4, Layer.isNetwork]

theorem any_isNetwork_of_any_isIPv4 (ls : List Layer) (h : ls.any Layer.isIPv4 = true) :
    ls.any Layer.isNetwork = true := by
  rw [List.any_eq_true] at h ⊢
  obtain ⟨l, hl, hi⟩ := h
  exact ⟨l, hl, isNetwork_of_isIPv4 l hi⟩

theorem strict_packetDataOf_isSome (deviceName : String) (packet : Packet) :
    (DataCollection100k.packetDataOf deviceName packet).isSome
      = (packet.layers.any Layer.isIPv4 && packet.layers.any Layer.isTransport) := by
  have hn := find?_isSome_eq_any Layer.isNetwork packet.layers
  have hi := find?_isSome_eq_any Layer.isIPv4 packet.layers
  have ht := find?_isSome_eq_any Layer.isTransport packet.layers
  have himp := any_isNetwork_of_any_isIPv4 packet.layers
  rw [← hi, ← ht]
  unfold DataCollection100k.packetDataOf Packet.NetworkLayer Packet.LayerIPv4
    Packet.TransportLayer
  cases h1 : packet.layers.find? Layer.isNetwork with
  | none =>
    have h4 : (packet.layers.find? Layer.isIPv4).isSome = false := by
      rw [hi]
      cases h5 : packet.layers.any Layer.isIPv4 with
      | false => rfl
      | true =>
        have h6 := himp h5
        rw [← hn, h1] at h6
        exact absurd h6 (by decide)
    rw [h4]
    rfl
  | some netLayer =>
    cases h2 : packet.layers.find? Layer.isIPv4 <;>
      cases h3 : packet.layers.find? Layer.isTransport <;> rfl

theorem length_filterMap_eq_countP {α β : Type} (f : α → Option β) (l : List α) :
    (l.filterMap f).length = l.countP (fun a => (f a).isSome) := by
  induction l with
  | nil => rfl
  | cons a t ih =>
    cases h : f a <;> simp [List.filterMap_cons, List.countP_cons, h, ih]

/-- C5. In the IPv4-only worker a record is sent for a frame exactly when the
frame has a decoded IPv4 layer and a decoded transport layer; otherwise nothing
is sent for it; and the number of records sent for a sequence of frames is the
number of its frames that have both layers (one record for each of them). -/
theorem strict_worker_sends_iff (deviceName : String) (packet : Packet)
    (frames : List Packet) :
    ((DataCollection100k.packetDataOf deviceName packet).isSome
      = (packet.layers.any Layer.isIPv4 && packet.layers.any Layer.isTransport))
    ∧ (DataCollection100k.capturePackets deviceName [packet]).length
      = (if packet.layers.any Layer.isIPv4 && packet.layers.any Layer.isTransport
          then 1 else 0)
    ∧ (DataCollection100k.capturePackets deviceName frames).length
      = frames.countP
          (fun p => p.layers.any Layer.isIPv4 && p.layers.any Layer.isTransport) := by
  have h := strict_packetDataOf_isSome deviceName
  refine ⟨h packet, ?_, ?_⟩
  · unfold DataCollection100k.capturePackets
    rw [length_filterMap_eq_countP]
    simp [List.countP_cons, h packet]
  · unfold DataCollection100k.capturePackets
    rw [length_filterMap_eq_countP]
    simp only [h]

/-! ### The size field -/

theorem setTransport_Size (pd : PacketData) (l : Layer) :
    (setTransport pd l).Size = pd.Size := by
  cases l <;> rfl

theorem permissive_size (sum256 : List Nat → Digest) (deviceName : String)
    (packet : Packet) :
    (DataCollection.packetDataOf sum256 deviceName packet).Size = packet.data.length := by
  unfold DataCollection.packetDataOf
  cases packet.NetworkLayer <;> cases packet.TransportLayer <;>
    cases packet.ApplicationLayer <;> simp [setTransport_Size, defaultPacketData]

theorem strict_size (deviceName : String) (packet : Packet) :
    (DataCollection100k.packetDataOf deviceName packet).map (fun r => r.Size)
      = if (DataCollection100k.packetDataOf deviceName packet).isSome
          then some packet.data.length else none := by
  unfold DataCollection100k.packetDataOf
  cases packet.NetworkLayer <;> cases packet.LayerIPv4 <;> cases packet.TransportLayer <;>
    simp [setTransport_Size, defaultPacketData]

/-- C6. The code at the failing input, a frame of 3000 bytes of which 1600 were
copied: both variants of `capturePackets` store 1600, the number of bytes
copied, in `Size`, while the metadata reports 3000; the loop of `main.go`
stores the reported length 3000. -/
theorem capturePackets_size_is_copied_length :
    truncatedFrame.metadata.Length = 3000
    ∧ (DataCollection.packetDataOf sampleSum256 "eth0" truncatedFrame).Size = 1600
    ∧ (DataCollection100k.packetDataOf "eth0" truncatedFrame).map (fun r => r.Size)
        = some 1600
    ∧ (MainGo.packetInfoOf "eth0" truncatedFrame).Size = 3000 := by
  refine ⟨rfl, ?_, ?_, rfl⟩
  · rw [permissive_size]
    exact List.length_replicate _ _
  · rw [strict_size, strict_packetDataOf_isSome]
    have h : (truncatedFrame.layers.any Layer.isIPv4
        && truncatedFrame.layers.any Layer.isTransport) = true := rfl
    rw [h, if_pos rfl]
    exact congrArg some (List.length_replicate _ _)

/-! ### TCP flags -/

theorem getTCPFlags_spec (t : TCP) :
    (∀ name ∈ flagNames, name ∈ MainGo.getTCPFlags t ↔ t.flagSet name = true)
    ∧ (MainGo.getTCPFlags t).Nodup
    ∧ (∀ name ∈ MainGo.getTCPFlags t, name ∈ flagNames) := by
  obtain ⟨sp, dp, win, fin, syn, rst, psh, ack, urg⟩ := t
  cases fin <;> cases syn <;> cases rst <;> cases psh <;> cases ack <;> cases urg <;>
    simp [MainGo.getTCPFlags, TCP.flagSet, flagNames]

theorem permissive_TCPFlags (sum256 : List Nat → Digest) (deviceName : String)
    (packet : Packet) :
    (DataCollection.packetDataOf sum256 deviceName packet).TCPFlags
      = match packet.TransportLayer with
        | some (.tcp t) => tcpFlagsString t
        | _ => "" := by
  unfold DataCollection.packetDataOf
  cases packet.TransportLayer with
  | none => cases packet.NetworkLayer <;> cases packet.ApplicationLayer <;> rfl
  | some l => cases l <;> cases packet.NetworkLayer <;> cases packet.ApplicationLayer <;> rfl

theorem interactive_Flags (deviceName : String) (packet : Packet) :
    (MainGo.packetInfoOf deviceName packet).Flags
      = match packet.LayerTCP with
        | some (.tcp t) => MainGo.getTCPFlags t
        | _ => [] := by
  unfold MainGo.packetInfoOf
  cases packet.LayerTCP with
  | none =>
    cases packet.LayerIPv4 with
    | none =>
      cases packet.LayerUDP with
      | none => rfl
      | some u => cases u <;> rfl
    | some i =>
      cases packet.LayerUDP with
      | none => cases i <;> rfl
      | some u => cases i <;> cases u <;> rfl
  | some l =>
    cases packet.LayerIPv4 with
    | none =>
      cases packet.LayerUDP with
      | none => cases l <;> rfl
      | some u => cases l <;> cases u <;> rfl
    | some i =>
      cases packet.LayerUDP with
      | none => cases l <;> cases i <;> rfl
      | some u => cases l <;> cases i <;> cases u <;> rfl

/-- What the two programs store for the flags of every frame: in `main.go` the
flags of a record are exactly the flags among SYN, ACK, FIN, RST, PSH, URG that
are set in the segment, each name once, and a frame without TCP layer has no
flags; in `capturePackets` (`data_collection.go`) the record of a TCP frame
holds the text `SYN=.. ACK=.. FIN=..` with the values of these three flags only,
and the record of a frame that is not TCP holds the empty text. -/
theorem tcp_flags_recorded (t : TCP) (sum256 : List Nat → Digest) (deviceName : String)
    (packet : Packet) :
    (∀ name ∈ flagNames, name ∈ MainGo.getTCPFlags t ↔ t.flagSet name = true)
    ∧ (MainGo.getTCPFlags t).Nodup
    ∧ (∀ name ∈ MainGo.getTCPFlags t, name ∈ flagNames)
    ∧ MainGo.getTCPFlags (segment false true false false false false) = ["SYN"]
    ∧ (MainGo.packetInfoOf deviceName packet).Flags
        = (match packet.LayerTCP with
           | some (.tcp t0) => MainGo.getTCPFlags t0
           | _ => [])
    ∧ (DataCollection.packetDataOf sum256 deviceName packet).TCPFlags
        = (match packet.TransportLayer with
           | some (.tcp t0) =>
             "SYN=" ++ fmtBool t0.SYN ++ " ACK=" ++ fmtBool t0.ACK ++ " FIN=" ++ fmtBool t0.FIN
           | _ => "") :=
  ⟨(getTCPFlags_spec t).1, (getTCPFlags_spec t).2.1, (getTCPFlags_spec t).2.2, rfl,
   interactive_Flags deviceName packet, permissive_TCPFlags sum256 deviceName packet⟩

/-! ### Field presence in the serialized record -/

theorem member_always (p : PacketData) :
    member (marshalPacketData p) "protocol" = some (.str p.Protocol)
    ∧ member (marshalPacketData p) "source_ip" = some (.str p.SourceIP)
    ∧ member (marshalPacketData p) "destination_ip" = some (.str p.DestinationIP)
    ∧ member (marshalPacketData p) "packet_type" = some (.str p.PacketType) := by
  refine ⟨?_, ?_, ?_, ?_⟩ <;>
    (unfold marshalPacketData member omitemptyNum omitemptyStr
     split_ifs <;> simp [List.find?])

theorem member_omitempty (p : PacketData) :
    member (marshalPacketData p) "source_port"
        = (if p.SourcePort = 0 then none else some (.num p.SourcePort))
    ∧ member (marshalPacketData p) "destination_port"
        = (if p.DestinationPort = 0 then none else some (.num p.DestinationPort))
    ∧ member (marshalPacketData p) "tcp_flags"
        = (if p.TCPFlags = "" then none else some (.str p.TCPFlags))
    ∧ member (marshalPacketData p) "payload_hash"
        = (if p.PayloadHash = "" then none else some (.str p.PayloadHash)) := by
  refine ⟨?_, ?_, ?_, ?_⟩ <;>
    (unfold marshalPacketData member omitemptyNum omitemptyStr
     split_ifs <;> simp [List.find?])

theorem permissive_network_fields (sum256 : List Nat → Digest) (deviceName : String)
    (packet : Packet) :
    (DataCollection.packetDataOf sum256 deviceName packet).PacketType
        = (match packet.NetworkLayer with | some l => l.typeName | none => "")
    ∧ (DataCollection.packetDataOf sum256 deviceName packet).SourceIP
        = (match packet.NetworkLayer with | some l => l.flowSrc | none => "")
    ∧ (DataCollection.packetDataOf sum256 deviceName packet).DestinationIP
        = (match packet.NetworkLayer with | some l => l.flowDst | none => "") := by
  unfold DataCollection.packetDataOf
  refine ⟨?_, ?_, ?_⟩ <;>
    (cases packet.TransportLayer with
     | none => cases packet.NetworkLayer <;> cases packet.ApplicationLayer <;> rfl
     | some l =>
       cases l <;> cases packet.NetworkLayer <;> cases packet.ApplicationLayer <;> rfl)

theorem permissive_transport_fields (sum256 : List Nat → Digest) (deviceName : String)
    (packet : Packet) :
    (DataCollection.packetDataOf sum256 deviceName packet).Protocol
        = (match packet.TransportLayer with | some l => l.typeName | none => "")
    ∧ (DataCollection.packetDataOf sum256 deviceName packet).SourcePort
        = (match packet.TransportLayer with
           | some (.tcp t) => t.SrcPort
           | some (.udp srcPort _) => srcPort
           | _ => 0)
    ∧ (DataCollection.packetDataOf sum256 deviceName packet).DestinationPort
        = (match packet.TransportLayer with
           | some (.tcp t) => t.DstPort
           | some (.udp _ dstPort) => dstPort
           | _ => 0) := by
  unfold DataCollection.packetDataOf
  refine ⟨?_, ?_, ?_⟩ <;>
    (cases packet.TransportLayer with
     | none => cases packet.NetworkLayer <;> cases packet.ApplicationLayer <;> rfl
     | some l =>
       cases l <;> cases packet.NetworkLayer <;> cases packet.ApplicationLayer <;> rfl)

theorem permissive_PayloadHash (sum256 : List Nat → Digest) (deviceName : String)
    (packet : Packet) :
    (DataCollection.packetDataOf sum256 deviceName packet).PayloadHash
      = (match packet.ApplicationLayer with
         | some a => hexEncodeToString (sum256 a.payload).val
         | none => "") := by
  unfold DataCollection.packetDataOf
  cases packet.TransportLayer with
  | none => cases packet.NetworkLayer <;> cases packet.ApplicationLayer <;> rfl
  | some l => cases l <;> cases packet.NetworkLayer <;> cases packet.ApplicationLayer <;> rfl

theorem tcpFlagsString_ne_empty (t : TCP) : tcpFlagsString t ≠ "" := by
  intro h
  have hl := congrArg String.length h
  simp only [tcpFlagsString, String.length_append] at hl
  have h4 : "SYN=".length = 4 := by decide
  have h0 : "".length = 0 := by decide
  omega

theorem hexEncodeToString_ne_empty (d : Digest) : hexEncodeToString d.val ≠ "" := by
  obtain ⟨bytes, hlen⟩ := d
  cases bytes with
  | nil => simp at hlen
  | cons b rest =>
    intro h
    have hd := congrArg String.data h
    simp [hexEncodeToString] at hd

/-- C4, as stated, fails for `capturePackets` of `data_collection.go`: for a
frame without network and transport layer the serialized record still has the
members `source_ip` and `protocol`, holding the empty string; and for a TCP
frame whose source port is 0 the member `source_port` is left out although the
transport layer was decoded. -/
theorem permissive_fields_counterexample :
    bareFrame.NetworkLayer = none
    ∧ bareFrame.TransportLayer = none
    ∧ member (marshalPacketData (DataCollection.packetDataOf sampleSum256 "eth0" bareFrame))
        "source_ip" = some (.str "")
    ∧ member (marshalPacketData (DataCollection.packetDataOf sampleSum256 "eth0" bareFrame))
        "protocol" = some (.str "")
    ∧ portZeroFrame.TransportLayer.isSome = true
    ∧ member (marshalPacketData
        (DataCollection.packetDataOf sampleSum256 "eth0" portZeroFrame)) "source_port"
        = none := by
  refine ⟨rfl, rfl, ?_, ?_, rfl, ?_⟩
  · rw [(member_always _).2.1, (permissive_network_fields _ _ _).2.1]; rfl
  · rw [(member_always _).1, (permissive_transport_fields _ _ _).1]; rfl
  · rw [(member_omitempty _).1, (permissive_transport_fields _ _ _).2.1]; rfl

/-- C4, amended. For every frame processed by `capturePackets`
(`data_collection.go`): the members `packet_type`, `source_ip`,
`destination_ip` and `protocol` are always emitted, holding the decoded value
when the network (transport) layer was decoded and the empty string otherwise;
`tcp_flags` is emitted iff the transport layer is TCP; `payload_hash` is emitted
iff an application layer was decoded; `source_port` and `destination_port` are
emitted iff the transport layer is TCP or UDP and the port is not 0. -/
theorem permissive_fields_presence (sum256 : List Nat → Digest) (deviceName : String)
    (packet : Packet) :
    member (marshalPacketData (DataCollection.packetDataOf sum256 deviceName packet))
        "packet_type"
      = some (.str (match packet.NetworkLayer with | some l => l.typeName | none => ""))
    ∧ member (marshalPacketData (DataCollection.packetDataOf sum256 deviceName packet))
        "source_ip"
      = some (.str (match packet.NetworkLayer with | some l => l.flowSrc | none => ""))
    ∧ member (marshalPacketData (DataCollection.packetDataOf sum256 deviceName packet))
        "destination_ip"
      = some (.str (match packet.NetworkLayer with | some l => l.flowDst | none => ""))
    ∧ member (marshalPacketData (DataCollection.packetDataOf sum256 deviceName packet))
        "protocol"
      = some (.str (match packet.TransportLayer with | some l => l.typeName | none => ""))
    ∧ (member (marshalPacketData (DataCollection.packetDataOf sum256 deviceName packet))
        "tcp_flags").isSome
      = (match packet.TransportLayer with | some (.tcp _) => true | _ => false)
    ∧ (member (marshalPacketData (DataCollection.packetDataOf sum256 deviceName packet))
        "payload_hash").isSome
      = packet.ApplicationLayer.isSome
    ∧ member (marshalPacketData (DataCollection.packetDataOf sum256 deviceName packet))
        "source_port"
      = (match packet.TransportLayer with
         | some (.tcp t) => if t.SrcPort = 0 then none else some (.num t.SrcPort)
         | some (.udp srcPort _) => if srcPort = 0 then none else some (.num srcPort)
         | _ => none)
    ∧ member (marshalPacketData (DataCollection.packetDataOf sum256 deviceName packet))
        "destination_port"
      = (match packet.TransportLayer with
         | some (.tcp t) => if t.DstPort = 0 then none else some (.num t.DstPort)
         | some (.udp _ dstPort) => if dstPort = 0 then none else some (.num dstPort)
         | _ => none) := by
  have hn := permissive_network_fields sum256 deviceName packet
  have ht := permissive_transport_fields sum256 deviceName packet
  have hf := permissive_TCPFlags sum256 deviceName packet
  have hp := permissive_PayloadHash sum256 deviceName packet
  have ha := member_always (DataCollection.packetDataOf sum256 deviceName packet)
  have ho := member_omitempty (DataCollection.packetDataOf sum256 deviceName packet)
  refine ⟨?_, ?_, ?_, ?_, ?_, ?_, ?_, ?_⟩
  · rw [ha.2.2.2, hn.1]
  · rw [ha.2.1, hn.2.1]
  · rw [ha.2.2.1, hn.2.2]
  · rw [ha.1, ht.1]
  · rw [ho.2.2.1, hf]
    cases packet.TransportLayer with
    | none => rfl
    | some l => cases l <;> simp [tcpFlagsString_ne_empty]
  · rw [ho.2.2.2, hp]
    cases packet.ApplicationLayer with
    | none => rfl
    | some a => simp [hexEncodeToString_ne_empty]
  · rw [ho.1, ht.2.1]
    cases packet.TransportLayer with
    | none => rfl
    | some l => cases l <;> rfl
  · rw [ho.2.1, ht.2.2]
    cases packet.TransportLayer with
    | none => rfl
    | some l => cases l <;> rfl

/-! ### Shutdown order -/

/-- C9. The code at the failing input, a stop request while one capture worker
is still in its loop: in both `main` functions `close(dataChan)` is the
statement right after `<-sigChan`, `wg.Wait()` comes last and no statement
signals the workers, so the order of the shutdown contract does not hold; and
in the schedule signal, `<-sigChan`, `close(dataChan)`, worker send, the worker
sends on the closed channel. -/
theorem main_closes_channel_before_workers_exit :
    closesAfterWorkers mainShutdown100k = false
    ∧ closesAfterWorkers mainShutdownBase = false
    ∧ position mainShutdown100k .closeDataChan = some 1
    ∧ position mainShutdown100k .waitWorkers = some 3
    ∧ position mainShutdown100k .signalWorkersStop = none
    ∧ position mainShutdownBase .closeDataChan = some 1
    ∧ position mainShutdownBase .waitWorkers = some 3
    ∧ position mainShutdownBase .signalWorkersStop = none
    ∧ (sysRun mainShutdown100k 1 [.signal, .mainStep, .mainStep, .workerSend]).panicked = true
    ∧ (sysRun mainShutdownBase 1 [.signal, .mainStep, .mainStep, .workerSend]).panicked = true := by
  decide

/-! ### Handed batches are non-empty and consistent -/

theorem processPackets_batch_consistent (w : World) (input : List PacketData) :
    ∀ c ∈ processPackets w input,
      c.data.PacketCount = c.data.Packets.length ∧ 1 ≤ c.data.PacketCount := by
  have inv := writerInv_writerAfter w input
  have hlog : ∀ c ∈ (writerAfter w input).log,
      c.data.PacketCount = c.data.Packets.length ∧ 1 ≤ c.data.PacketCount := by
    intro c hc
    obtain ⟨h1, h2⟩ := inv.full c hc
    exact ⟨by rw [h1, h2], by rw [h1]; exact rotationThreshold_pos⟩
  intro c hc
  rw [processPackets_eq] at hc
  split at hc
  · rename_i hpos
    rcases List.mem_append.mp hc with h | h
    · exact hlog c h
    · rw [List.mem_singleton] at h
      rw [h]
      exact ⟨inv.count_eq, hpos⟩
  · exact hlog c hc

theorem processPackets_length (w : World) (input : List PacketData) :
    (processPackets w input).length
      = input.length / rotationThreshold
        + (if input.length % rotationThreshold = 0 then 0 else 1) := by
  have hl := writerAfter_log_length w input
  have hc := writerAfter_count w input
  rw [processPackets_eq]
  by_cases h : (writerAfter w input).currentData.PacketCount > 0
  · rw [if_pos h, if_neg (by rw [← hc]; omega), List.length_append, hl]
    rfl
  · rw [if_neg h, if_pos (by rw [← hc]; omega), hl, Nat.add_zero]

/-- C11. For every input, every batch that `processPackets` hands to
`saveToJSON` has a `packet_count` equal to the number of records in its packets
list and at least 1; the number of calls is the number of full batches plus one
when a remainder is left, so an input whose length is a multiple of the rotation
threshold gives no extra final file, and the empty input gives no call. -/
theorem processPackets_batches_nonempty (w : World) (input : List PacketData) :
    (∀ c ∈ processPackets w input,
      c.data.PacketCount = c.data.Packets.length ∧ 1 ≤ c.data.PacketCount
        ∧ c.data.Packets ≠ [])
    ∧ (processPackets w input).length
        = input.length / rotationThreshold
          + (if input.length % rotationThreshold = 0 then 0 else 1)
    ∧ processPackets w [] = [] := by
  refine ⟨?_, processPackets_length w input, rfl⟩
  intro c hc
  obtain ⟨h1, h2⟩ := processPackets_batch_consistent w input c hc
  refine ⟨h1, h2, ?_⟩
  intro hnil
  rw [hnil, List.length_nil] at h1
  omega

/-! ### TCP flags in the capture workers -/

/-- C7. The code at the failing input, a TCP segment with only RST set:
`capturePackets` of `data_collection.go` and of `data_collection_100k_IPv4.go`
store the text `SYN=false ACK=false FIN=false`, the same as for a segment with
no flag set, and that text is the `tcp_flags` member of the serialized record,
so the set RST flag is lost; `getTCPFlags` of `main.go` records the one name RST
for the same segment, as the claim says.  For a segment with only SYN set the
workers store `SYN=true ACK=false FIN=false` and `getTCPFlags` the one name
SYN. -/
theorem capturePackets_flags_text_loses_rst :
    (segment false false true false false false).flagSet "RST" = true
    ∧ (DataCollection.packetDataOf sampleSum256 "eth0"
        (tcpFrame (segment false false true false false false))).TCPFlags
      = "SYN=false ACK=false FIN=false"
    ∧ (DataCollection.packetDataOf sampleSum256 "eth0"
        (tcpFrame (segment false false false false false false))).TCPFlags
      = "SYN=false ACK=false FIN=false"
    ∧ member (marshalPacketData (DataCollection.packetDataOf sampleSum256 "eth0"
        (tcpFrame (segment false false true false false false)))) "tcp_flags"
      = some (.str "SYN=false ACK=false FIN=false")
    ∧ (DataCollection100k.packetDataOf "eth0"
        (tcpFrame (segment false false true false false false))).map (fun r => r.TCPFlags)
      = some "SYN=false ACK=false FIN=false"
    ∧ MainGo.getTCPFlags (segment false false true false false false) = ["RST"]
    ∧ (MainGo.packetInfoOf "eth0"
        (tcpFrame (segment false false true false false false))).Flags = ["RST"]
    ∧ (DataCollection.packetDataOf sampleSum256 "eth0"
        (tcpFrame (segment false true false false false false))).TCPFlags
      = "SYN=true ACK=false FIN=false"
    ∧ MainGo.getTCPFlags (segment false true false false false false) = ["SYN"] := by
  refine ⟨by decide, ?_, ?_, ?_, ?_, rfl, ?_, ?_, rfl⟩
  · rw [permissive_TCPFlags]; decide
  · rw [permissive_TCPFlags]; decide
  · rw [(member_omitempty _).2.2.1, permissive_TCPFlags]; decide
  · decide
  · rw [interactive_Flags]; rfl
  · rw [permissive_TCPFlags]; decide

end PacketCapture
